import Mathlib

/-!
Shallow embedding of the PyRadius backend (Django/Python) and proofs about it.

The embedding follows the source files:
  backend/users/models.py     (RadiusUser)
  backend/sessions/models.py  (RadiusSession)
  backend/sessions/buffer.py  (SessionBuffer)
  backend/nas/models.py       (NASClient and its TTL cache)
  backend/radius/auth_handler.py and backend/radius/server.py

Conventions of the embedding:
  - timestamps are integers (epoch seconds); `timezone.now()` becomes an
    explicit `now : Int` argument;
  - the database is a `DB` value (a list of session rows and a list of user
    rows); a Django `save()` or queryset `update()` becomes a functional
    update of those lists;
  - Python `None` becomes `Option.none`; Python string truthiness (`if s:`)
    is `strTruthy`;
  - octet counters are `Int` (Django `BigIntegerField`), session_time and
    session counts are `Nat` (`PositiveIntegerField`), while
    `remaining_sessions` is `Int` (Django `IntegerField`, may be negative).
-/

namespace PyRadius

/-- Truthiness of an optional string, as Python evaluates `if s:` for a
value of type `str | None`. -/
def strTruthy : Option String → Bool
  | none => false
  | some s => s ≠ ""

/-- Session status (`RadiusSession.STATUS_ACTIVE` / `STATUS_STOPPED`). -/
inductive SessionStatus where
  | active
  | stopped
deriving DecidableEq

/-- RFC 2866 terminate cause `Lost-Carrier` (`TERMINATE_CAUSE_LOST_CARRIER`). -/
def TERMINATE_CAUSE_LOST_CARRIER : Nat := 2

/-- RFC 2866 terminate cause `NAS-Request` (`TERMINATE_CAUSE_NAS_REQUEST`). -/
def TERMINATE_CAUSE_NAS_REQUEST : Nat := 10

/-- One row of the `radius_sessions` table (sessions/models.py, class
RadiusSession). `(session_id, nas_ip_address)` is unique together. -/
structure RadiusSession where
  session_id : String
  username : String
  nas_identifier : String := ""
  nas_ip_address : Option String := none
  framed_ip_address : Option String := none
  calling_station_id : String := ""
  status : SessionStatus := SessionStatus.active
  start_time : Int := 0
  last_updated : Int := 0
  stop_time : Option Int := none
  session_time : Nat := 0
  input_octets : Int := 0
  output_octets : Int := 0
  input_packets : Int := 0
  output_packets : Int := 0
  terminate_cause : Option Nat := none
deriving DecidableEq

/-- One row of the `radius_users` table (users/models.py, class RadiusUser). -/
structure RadiusUser where
  username : String
  password_hash : String := ""
  max_concurrent_sessions : Nat := 1
  expiration_date : Option Int := none
  is_active : Bool := true
  rx_traffic : Int := 0
  tx_traffic : Int := 0
  total_traffic : Int := 0
  allowed_traffic : Option Int := none
  current_sessions : Nat := 0
  remaining_sessions : Int := 1
deriving DecidableEq

/-- The persistent store: the two tables the session lifecycle touches. -/
structure DB where
  sessions : List RadiusSession
  users : List RadiusUser
deriving DecidableEq

/-- RadiusUser.check_password.  The bcrypt comparison is an uninterpreted
boolean parameter `bcrypt_checkpw plain hash`; the cleartext branch tests
that `password_hash` begins with the four characters `ctp:` (stated on the
character list, which is what `str.startswith` means) and then compares
the remainder, exactly the `removeprefix` of the source. -/
def RadiusUser.check_password (bcrypt_checkpw : String → String → Bool)
    (u : RadiusUser) (plain : String) : Bool :=
  if u.password_hash = "" then false
  else if u.password_hash.data.take 4 = "ctp:".data then
    u.password_hash.drop 4 = plain
  else bcrypt_checkpw plain u.password_hash

/-- RadiusUser.is_expired: `timezone.now() > self.expiration_date`. -/
def RadiusUser.is_expired (u : RadiusUser) (now : Int) : Bool :=
  match u.expiration_date with
  | none => false
  | some d => now > d

/-- RadiusUser.can_authenticate: returns `(ok, reason)`. -/
def RadiusUser.can_authenticate (u : RadiusUser) (now : Int) : Bool × String :=
  if !u.is_active then (false, "Account is disabled")
  else if u.is_expired now then (false, "Account has expired")
  else
    match u.allowed_traffic with
    | some limit =>
        if u.total_traffic ≥ limit then (false, "Traffic limit reached") else (true, "OK")
    | none => (true, "OK")

/-- RadiusUser.get_active_session_count: returns the denormalized
`current_sessions` field. -/
def RadiusUser.get_active_session_count (u : RadiusUser) : Nat :=
  u.current_sessions

/-- RadiusUser.save: the override recomputes
`remaining_sessions = max_concurrent_sessions - current_sessions`
(signed; the source does not clamp at zero). -/
def RadiusUser.save (u : RadiusUser) : RadiusUser :=
  { u with remaining_sessions :=
      (u.max_concurrent_sessions : Int) - (u.current_sessions : Int) }

/-- RadiusSession.count_active_sessions_for_user. -/
def RadiusSession.count_active_sessions_for_user
    (sessions : List RadiusSession) (username : String) : Nat :=
  (sessions.filter fun s =>
    s.username == username && s.status == SessionStatus.active).length

/-- RadiusUser.update_session_counts: recompute `current_sessions` from the
session table, set `remaining_sessions`, then `save()` (which recomputes
`remaining_sessions` again, identically).  Returns unchanged when the
username is falsy, as the source does. -/
def RadiusUser.update_session_counts (u : RadiusUser)
    (sessions : List RadiusSession) : RadiusUser :=
  if u.username = "" then u
  else
    let u1 := { u with current_sessions :=
      RadiusSession.count_active_sessions_for_user sessions u.username }
    let u2 := { u1 with remaining_sessions :=
      (u1.max_concurrent_sessions : Int) - (u1.current_sessions : Int) }
    u2.save

/-- RadiusUser.can_create_session: `can_authenticate` first, then the
concurrency check against the denormalized `current_sessions` only. -/
def RadiusUser.can_create_session (u : RadiusUser) (now : Int) : Bool × String :=
  let r := u.can_authenticate now
  if !r.1 then (false, r.2)
  else if u.get_active_session_count ≥ u.max_concurrent_sessions then
    (false, "Maximum concurrent sessions (" ++ toString u.max_concurrent_sessions
      ++ ") reached")
  else (true, "OK")

/-- Per-counter delta rule, written inline twice in the source
(RadiusSession.update_statistics and RadiusSession.stop_session):
`new < old` means counter reset, credit the full new value; otherwise
credit the difference; an absent packet counter contributes no delta. -/
def counter_delta (new : Option Int) (old : Int) : Int :=
  match new with
  | none => 0
  | some v => if v < old then v else v - old

/-- RadiusSession._update_user_traffic: early return when both deltas are
non-positive, otherwise an atomic F-expression update of the matching user
rows, adding `max 0 delta` to each traffic counter. -/
def update_user_traffic (username : String) (delta_rx delta_tx : Int)
    (users : List RadiusUser) : List RadiusUser :=
  if delta_rx ≤ 0 ∧ delta_tx ≤ 0 then users
  else
    users.map fun u =>
      if u.username == username then
        { u with
            rx_traffic := u.rx_traffic + max 0 delta_rx,
            tx_traffic := u.tx_traffic + max 0 delta_tx,
            total_traffic := u.total_traffic + max 0 delta_rx + max 0 delta_tx }
      else u

/-- Optional keyword arguments of RadiusSession.update_statistics. -/
structure UpdateArgs where
  session_time : Option Nat := none
  input_octets : Option Int := none
  output_octets : Option Int := none
  input_packets : Option Int := none
  output_packets : Option Int := none
deriving DecidableEq

/-- Optional keyword arguments of RadiusSession.stop_session. -/
structure StopArgs where
  terminate_cause : Option Nat := none
  session_time : Option Nat := none
  input_octets : Option Int := none
  output_octets : Option Int := none
  input_packets : Option Int := none
  output_packets : Option Int := none
deriving DecidableEq

/-- RadiusSession.update_statistics on the store: compute deltas against the
stored counters, credit the user traffic, overwrite the session counters
with the provided absolute values and set `last_updated = now`; the
`save()` replaces the row with the same `(session_id, nas_ip_address)` key
(unique together). -/
def RadiusSession.update_statistics (s : RadiusSession) (a : UpdateArgs)
    (now : Int) (db : DB) : DB :=
  let delta_rx := counter_delta a.input_octets s.input_octets
  let delta_tx := counter_delta a.output_octets s.output_octets
  let users1 := update_user_traffic s.username delta_rx delta_tx db.users
  let s2 := { s with
      session_time := a.session_time.getD s.session_time,
      input_octets := a.input_octets.getD s.input_octets,
      output_octets := a.output_octets.getD s.output_octets,
      input_packets := a.input_packets.getD s.input_packets,
      output_packets := a.output_packets.getD s.output_packets,
      last_updated := now }
  ⟨db.sessions.map fun t =>
      if t.session_id == s.session_id && t.nas_ip_address == s.nas_ip_address
      then s2 else t,
    users1⟩

/-- RadiusSession.stop_session on the store: compute deltas, credit the user
traffic, mark the row Stopped with `stop_time = now`, overwrite whichever
counters were provided, `save()`, then refresh the owning user via
`update_session_counts` (fetched fresh after the save). -/
def RadiusSession.stop_session (s : RadiusSession) (a : StopArgs) (now : Int)
    (db : DB) : DB :=
  let delta_rx := counter_delta a.input_octets s.input_octets
  let delta_tx := counter_delta a.output_octets s.output_octets
  let users1 := update_user_traffic s.username delta_rx delta_tx db.users
  let s2 := { s with
      status := SessionStatus.stopped,
      stop_time := some now,
      terminate_cause := match a.terminate_cause with
        | none => s.terminate_cause
        | some c => some c,
      session_time := a.session_time.getD s.session_time,
      input_octets := a.input_octets.getD s.input_octets,
      output_octets := a.output_octets.getD s.output_octets,
      input_packets := a.input_packets.getD s.input_packets,
      output_packets := a.output_packets.getD s.output_packets }
  let sessions2 := db.sessions.map fun t =>
    if t.session_id == s.session_id && t.nas_ip_address == s.nas_ip_address
    then s2 else t
  let users2 := users1.map fun u =>
    if u.username == s.username then u.update_session_counts sessions2 else u
  ⟨sessions2, users2⟩

/-- RadiusSession.find_session: filter by `session_id`, then by
`nas_ip_address` when that argument is truthy, and take the first row.
For the `(session_id, nas_ip)` keys used in this development the key is
unique, so which row `first()` orders first does not matter. -/
def find_session (sessions : List RadiusSession) (session_id : String)
    (nas_ip_address : Option String) : Option RadiusSession :=
  let qs := sessions.filter fun s => s.session_id == session_id
  let qs :=
    if strTruthy nas_ip_address then
      qs.filter fun s => s.nas_ip_address == nas_ip_address
    else qs
  qs.head?

/-- Cutoff time of cleanup_dead_sessions:
`timezone.now() - timedelta(seconds=interim_interval * multiplier)`. -/
def stale_cutoff (now : Int) (interim_interval multiplier : Nat) : Int :=
  now - ((interim_interval * multiplier : Nat) : Int)

/-- The queryset filter of cleanup_dead_sessions:
`status=ACTIVE, last_updated__lt=cutoff_time`. -/
def dead_session_pred (cutoff_time : Int) (s : RadiusSession) : Bool :=
  s.status == SessionStatus.active && decide (s.last_updated < cutoff_time)

/-- RadiusSession.cleanup_dead_sessions: bulk-stop the Active sessions whose
`last_updated` is strictly before `now - interim_interval * multiplier`,
with terminate cause Lost-Carrier and `stop_time` set (the source calls
`timezone.now()` a second time for the stop time, modelled as `now2`), then
refresh session counts of each affected username; returns the number of
reaped sessions. -/
def RadiusSession.cleanup_dead_sessions (db : DB) (now now2 : Int)
    (interim_interval multiplier : Nat) : DB × Nat :=
  let cutoff_time := stale_cutoff now interim_interval multiplier
  let dead_sessions := db.sessions.filter (dead_session_pred cutoff_time)
  let count := dead_sessions.length
  if 0 < count then
    let affected_users := dead_sessions.map fun s => s.username
    let sessions2 := db.sessions.map fun s =>
      if dead_session_pred cutoff_time s then
        { s with
            status := SessionStatus.stopped,
            stop_time := some now2,
            terminate_cause := some TERMINATE_CAUSE_LOST_CARRIER }
      else s
    let users2 := db.users.map fun u =>
      if affected_users.contains u.username then
        u.update_session_counts sessions2
      else u
    (⟨sessions2, users2⟩, count)
  else (db, count)

/-- Operation type tags of the Session Buffer (sessions/buffer.py,
enum OperationType). -/
inductive OperationType where
  | start
  | update
  | stop
deriving DecidableEq

/-- The heterogeneous `data` dict of a SessionOperation, with one optional
field per key the source ever stores.  An outer `none` means the key is
absent from the dict.  `framed_ip_address` is stored by `add_start` with a
possibly-None value, hence the nested option.  `created_and_stopped`
models the `_created_and_stopped` marker key set during merging. -/
structure OpData where
  nas_identifier : Option String := none
  framed_ip_address : Option (Option String) := none
  calling_station_id : Option String := none
  terminate_cause : Option Nat := none
  session_time : Option Nat := none
  input_octets : Option Int := none
  output_octets : Option Int := none
  input_packets : Option Int := none
  output_packets : Option Int := none
  created_and_stopped : Bool := false
deriving DecidableEq

/-- Python `old.update(new)` on two `data` dicts: keys present in `new`
override `old`, keys absent from `new` keep the old value. -/
def OpData.dictUpdate (old new : OpData) : OpData where
  nas_identifier := new.nas_identifier <|> old.nas_identifier
  framed_ip_address := new.framed_ip_address <|> old.framed_ip_address
  calling_station_id := new.calling_station_id <|> old.calling_station_id
  terminate_cause := new.terminate_cause <|> old.terminate_cause
  session_time := new.session_time <|> old.session_time
  input_octets := new.input_octets <|> old.input_octets
  output_octets := new.output_octets <|> old.output_octets
  input_packets := new.input_packets <|> old.input_packets
  output_packets := new.output_packets <|> old.output_packets
  created_and_stopped := old.created_and_stopped || new.created_and_stopped

/-- A queued session operation (sessions/buffer.py, dataclass
SessionOperation). -/
structure SessionOperation where
  op_type : OperationType
  session_id : String
  nas_ip_address : String
  username : String
  timestamp : Int := 0
  data : OpData := {}
deriving DecidableEq

/-- Key of the merged-operations dict and of the pending-state map. -/
abbrev SessionKey := String × String

/-- Lookup in an insertion-ordered association list standing for a Python
dict. -/
def assocFind (l : List (SessionKey × SessionOperation)) (k : SessionKey) :
    Option SessionOperation :=
  (l.find? fun p => p.1 == k).map fun p => p.2

/-- Assignment to an existing key of a Python dict: the value is replaced,
the insertion position of the key is unchanged. -/
def assocReplace (l : List (SessionKey × SessionOperation)) (k : SessionKey)
    (v : SessionOperation) : List (SessionKey × SessionOperation) :=
  l.map fun p => if p.1 == k then (p.1, v) else p

/-- One fold step of SessionBuffer._merge_operations: a first operation for
a key is inserted; a later STOP wins the slot, merging the data and marking
`_created_and_stopped` when it displaces a START; a later UPDATE merges its
payload into the existing entry in place; a later START is ignored. -/
def mergeStep (merged : List (SessionKey × SessionOperation))
    (op : SessionOperation) : List (SessionKey × SessionOperation) :=
  let key : SessionKey := (op.session_id, op.nas_ip_address)
  match assocFind merged key with
  | none => merged ++ [(key, op)]
  | some existing =>
    match op.op_type with
    | OperationType.stop =>
        let d := existing.data.dictUpdate op.data
        let d :=
          if existing.op_type == OperationType.start then
            { d with created_and_stopped := true }
          else d
        assocReplace merged key { op with data := d }
    | OperationType.update =>
        assocReplace merged key { existing with data := existing.data.dictUpdate op.data }
    | OperationType.start => merged

/-- SessionBuffer._merge_operations: fold the drained operations in arrival
order into an insertion-ordered dict keyed by `(session_id, nas_ip)`. -/
def merge_operations (operations : List SessionOperation) :
    List (SessionKey × SessionOperation) :=
  operations.foldl mergeStep []

/-- SessionBuffer.get_pending_session_count: net count of Start minus Stop
operations recorded in the pending-state map for the given username. -/
def get_pending_session_count
    (pending_state : List (SessionKey × SessionOperation)) (username : String) :
    Int :=
  pending_state.foldl
    (fun count p =>
      if p.2.username == username then
        match p.2.op_type with
        | OperationType.start => count + 1
        | OperationType.stop => count - 1
        | OperationType.update => count
      else count)
    0

/-- SessionBuffer._process_start: skip when the session already exists;
otherwise stop any Active session of the same user holding the same
framed IP under a different session id (cause NAS-Request), then insert a
new Active row with `start_time` from the operation and `last_updated`
defaulting to the current time. -/
def process_start (op : SessionOperation) (db : DB) (now : Int) : DB :=
  match find_session db.sessions op.session_id (some op.nas_ip_address) with
  | some _ => db
  | none =>
    let framed_ip : Option String := op.data.framed_ip_address.getD none
    let db1 :=
      if strTruthy framed_ip then
        let stale_sessions := db.sessions.filter fun t =>
          t.username == op.username && t.status == SessionStatus.active &&
            t.framed_ip_address == framed_ip && !(t.session_id == op.session_id)
        stale_sessions.foldl
          (fun d stale =>
            stale.stop_session { terminate_cause := some TERMINATE_CAUSE_NAS_REQUEST }
              now d)
          db
      else db
    let created : RadiusSession :=
      { session_id := op.session_id,
        username := op.username,
        nas_identifier := op.data.nas_identifier.getD "",
        nas_ip_address := some op.nas_ip_address,
        framed_ip_address := framed_ip,
        calling_station_id := op.data.calling_station_id.getD "",
        status := SessionStatus.active,
        start_time := op.timestamp,
        last_updated := now }
    ⟨db1.sessions ++ [created], db1.users⟩

/-- SessionBuffer._process_update: look up the session; skip when absent;
call `update_statistics` with whichever counters the payload carries, and
only when at least one keyword is present. -/
def process_update (op : SessionOperation) (db : DB) (now : Int) : DB :=
  match find_session db.sessions op.session_id (some op.nas_ip_address) with
  | none => db
  | some session =>
    let update_kwargs : UpdateArgs :=
      { session_time := op.data.session_time,
        input_octets := op.data.input_octets,
        output_octets := op.data.output_octets,
        input_packets := op.data.input_packets,
        output_packets := op.data.output_packets }
    if update_kwargs = ({} : UpdateArgs) then db
    else session.update_statistics update_kwargs now db

/-- SessionBuffer._process_stop: look up the session; skip when absent;
call `stop_session` with whichever arguments the payload carries. -/
def process_stop (op : SessionOperation) (db : DB) (now : Int) : DB :=
  match find_session db.sessions op.session_id (some op.nas_ip_address) with
  | none => db
  | some session =>
    session.stop_session
      { terminate_cause := op.data.terminate_cause,
        session_time := op.data.session_time,
        input_octets := op.data.input_octets,
        output_octets := op.data.output_octets,
        input_packets := op.data.input_packets,
        output_packets := op.data.output_packets }
      now db

/-- SessionBuffer._process_start_and_stop: when a row for the key already
exists, just stop it; otherwise insert the session directly as Stopped,
with `start_time` from the merged operation, `stop_time = now`, and the
provided counters (defaulting to 0).  Note the insert branch never touches
the user traffic counters. -/
def process_start_and_stop (op : SessionOperation) (db : DB) (now : Int) : DB :=
  match find_session db.sessions op.session_id (some op.nas_ip_address) with
  | some _ => process_stop op db now
  | none =>
    let created : RadiusSession :=
      { session_id := op.session_id,
        username := op.username,
        nas_identifier := op.data.nas_identifier.getD "",
        nas_ip_address := some op.nas_ip_address,
        framed_ip_address := op.data.framed_ip_address.getD none,
        calling_station_id := op.data.calling_station_id.getD "",
        status := SessionStatus.stopped,
        start_time := op.timestamp,
        last_updated := now,
        stop_time := some now,
        terminate_cause := op.data.terminate_cause,
        session_time := op.data.session_time.getD 0,
        input_octets := op.data.input_octets.getD 0,
        output_octets := op.data.output_octets.getD 0,
        input_packets := op.data.input_packets.getD 0,
        output_packets := op.data.output_packets.getD 0 }
    ⟨db.sessions ++ [created], db.users⟩

/-- One iteration of the merged-entries loop of
SessionBuffer._write_to_database, threading the store, the processed
counter and the affected-usernames set. -/
def processMergedEntry (now : Int) (st : DB × Nat × List String)
    (entry : SessionKey × SessionOperation) : DB × Nat × List String :=
  let op := entry.2
  let addAffected := fun (l : List String) =>
    if l.contains op.username then l else l ++ [op.username]
  match op.op_type with
  | OperationType.start =>
      (process_start op st.1 now, st.2.1 + 1, addAffected st.2.2)
  | OperationType.update =>
      (process_update op st.1 now, st.2.1 + 1, st.2.2)
  | OperationType.stop =>
      if op.data.created_and_stopped then
        (process_start_and_stop op st.1 now, st.2.1 + 1, addAffected st.2.2)
      else
        (process_stop op st.1 now, st.2.1 + 1, addAffected st.2.2)

/-- SessionBuffer._write_to_database: apply the merged entries in insertion
order inside one transaction, then refresh the session counts of every
affected username.  A store failure is modelled as the transaction raising
at commit: every effect inside the atomic block is rolled back, the
exception handler logs at ERROR, and the already-accumulated `processed`
count is still returned.  The result is `(store, processed, errorLogged)`. -/
def write_to_database (merged : List (SessionKey × SessionOperation)) (db : DB)
    (now : Int) (txn_fails : Bool) : DB × Nat × Bool :=
  let st := merged.foldl (processMergedEntry now) (db, 0, ([] : List String))
  let dbInner := st.1
  let users2 := dbInner.users.map fun u =>
    if st.2.2.contains u.username then u.update_session_counts dbInner.sessions
    else u
  if txn_fails then (db, st.2.1, true) else (⟨dbInner.sessions, users2⟩, st.2.1, false)

/-- In-memory state of the SessionBuffer: the FIFO queue and the
pending-state map. -/
structure BufferState where
  queue : List SessionOperation := []
  pending_state : List (SessionKey × SessionOperation) := []
deriving DecidableEq

/-- Result of one SessionBuffer.flush call. -/
structure FlushResult where
  buffer : BufferState
  db : DB
  processed : Nat
  flush_error_logged : Bool
deriving DecidableEq

/-- SessionBuffer.flush: drain the queue, merge, drop the merged keys from
the pending-state map, and write to the store.  The drained operations are
not pushed back on any path; on a failed transaction the queue is left
empty and only the `processed` count and the ERROR log remain. -/
def flush (buf : BufferState) (db : DB) (now : Int) (txn_fails : Bool) :
    FlushResult :=
  let operations := buf.queue
  if operations.isEmpty then ⟨buf, db, 0, false⟩
  else
    let merged := merge_operations operations
    let pending2 := buf.pending_state.filter fun p => (assocFind merged p.1).isNone
    let w := write_to_database merged db now txn_fails
    ⟨⟨[], pending2⟩, w.1, w.2.1, w.2.2⟩

/-- One row of the `radius_nas_clients` table (nas/models.py, class
NASClient).  `identifier` is globally unique; `(identifier, ip_address)`
unique together; the default queryset ordering of the model is by
`identifier`. -/
structure NASClient where
  identifier : String
  ip_address : String
  shared_secret : String
  auth_port : Nat := 1812
  acct_port : Nat := 1813
  is_active : Bool := true
deriving DecidableEq

/-- NASClient.get_secret_bytes (bytes are kept as a string here). -/
def NASClient.get_secret_bytes (n : NASClient) : String :=
  n.shared_secret

/-- Values the shared NAS cache stores: a NASClient, the `False` sentinel
for a cached negative match, or a stored Python `None` (which the cache
getter cannot distinguish from a miss). -/
inductive CacheVal where
  | nasVal (n : NASClient)
  | falseVal
  | noneVal
deriving DecidableEq

/-- State of the `_nas_cache` TTL cache: an expired entry behaves exactly
like an absent one, so TTL expiry is modelled as absence. -/
abbrev NASCache := List (String × CacheVal)

/-- NASCache.get, with expiry modelled as absence. -/
def cacheGet (c : NASCache) (k : String) : Option CacheVal :=
  (c.find? fun p => p.1 == k).map fun p => p.2

/-- NASCache.set: replace the value of an existing key in place, otherwise
append the entry. -/
def cacheSet (c : NASCache) (k : String) (v : CacheVal) : NASCache :=
  if (c.find? fun p => p.1 == k).isSome then
    c.map fun p => if p.1 == k then (k, v) else p
  else c ++ [(k, v)]

/-- First row of a NASClient queryset under the default model ordering by
`identifier` (identifiers are unique, so ties cannot occur). -/
def firstByIdentifier : List NASClient → Option NASClient
  | [] => none
  | r :: rs =>
    some (rs.foldl
      (fun best x =>
        if compare x.identifier best.identifier = Ordering.lt then x else best)
      r)

/-- NASClient.get_by_ip: cached lookup of the first active row for an IP.
A cached Python `None` is indistinguishable from a miss and falls through
to the query, as in the source; a cached `False` sentinel cannot occur
under this key but would be returned and then treated as falsy by every
caller, which is the same as `none` here. -/
def NASClient.get_by_ip (rows : List NASClient) (c : NASCache) (ip : String) :
    Option NASClient × NASCache :=
  let key := "nas_ip:" ++ ip
  match cacheGet c key with
  | some (CacheVal.nasVal n) => (some n, c)
  | some CacheVal.falseVal => (none, c)
  | _ =>
    let nas := firstByIdentifier
      (rows.filter fun r => r.ip_address == ip && r.is_active)
    let c2 := cacheSet c key
      (match nas with
        | some n => CacheVal.nasVal n
        | none => CacheVal.noneVal)
    (nas, c2)

/-- NASClient.get_by_identifier: cached lookup of the first active row for
an identifier. -/
def NASClient.get_by_identifier (rows : List NASClient) (c : NASCache)
    (identifier : String) : Option NASClient × NASCache :=
  let key := "nas_id:" ++ identifier
  match cacheGet c key with
  | some (CacheVal.nasVal n) => (some n, c)
  | some CacheVal.falseVal => (none, c)
  | _ =>
    let nas := firstByIdentifier
      (rows.filter fun r => r.identifier == identifier && r.is_active)
    let c2 := cacheSet c key
      (match nas with
        | some n => CacheVal.nasVal n
        | none => CacheVal.noneVal)
    (nas, c2)

/-- NASClient.get_best_match: the lookup used by the UDP dispatcher for
secret resolution.  Active rows for the IP are collected; with a truthy
identifier only an exact identifier match is returned (strict, negative
results cached as the `False` sentinel); with no identifier the first
active row for the IP is returned. -/
def NASClient.get_best_match (rows : List NASClient) (c : NASCache)
    (ip_address : String) (identifier : Option String) :
    Option NASClient × NASCache :=
  let key := "nas_match:" ++ ip_address ++ ":" ++
    (if strTruthy identifier then identifier.getD "" else "")
  match cacheGet c key with
  | some (CacheVal.nasVal n) => (some n, c)
  | some CacheVal.falseVal => (none, c)
  | _ =>
    let qs := rows.filter fun r => r.ip_address == ip_address && r.is_active
    if qs.isEmpty then (none, cacheSet c key CacheVal.falseVal)
    else if strTruthy identifier then
      match qs.find? (fun r => r.identifier == identifier.getD "") with
      | some m => (some m, cacheSet c key (CacheVal.nasVal m))
      | none => (none, cacheSet c key CacheVal.falseVal)
    else
      match firstByIdentifier qs with
      | some n => (some n, cacheSet c key (CacheVal.nasVal n))
      | none => (none, cacheSet c key CacheVal.falseVal)

/-- NASClient.find_nas: try by IP first and return any hit, then try by
identifier.  Unlike `get_best_match`, the IP step ignores the identifier
entirely. -/
def NASClient.find_nas (rows : List NASClient) (c : NASCache)
    (ip_address identifier : Option String) : Option NASClient × NASCache :=
  let r1 :=
    if strTruthy ip_address then
      NASClient.get_by_ip rows c (ip_address.getD "")
    else (none, c)
  match r1.1 with
  | some n => (some n, r1.2)
  | none =>
    let r2 :=
      if strTruthy identifier then
        NASClient.get_by_identifier rows r1.2 (identifier.getD "")
      else (none, r1.2)
    match r2.1 with
    | some n => (some n, r2.2)
    | none => (none, r2.2)

/-- Attributes of a received Access-Request after shallow decoding, as the
handlers read them: `user_password` is the decrypted User-Password, or
`none` when the attribute is absent or decryption failed. -/
structure AuthPacketIn where
  source_ip : String
  nas_identifier_attr : Option String := none
  user_name : Option String := none
  user_password : Option String := none
  nas_ip_attr : Option String := none
  calling_station_attr : Option String := none
deriving DecidableEq

/-- Reply of the authentication handler.  An Access-Accept carries
`Reply-Message="Authentication successful"`, `Service-Type=Framed`,
`Framed-Protocol=PPP` and the configured Acct-Interim-Interval; an
Access-Reject carries the reason as its Reply-Message. -/
inductive AuthReply where
  | accept (interim_interval : Nat)
  | reject (reason : String)
deriving DecidableEq

/-- AuthenticationHandler.handle_auth_request: validate attributes, resolve
the NAS via `find_nas`, look up the user, verify the password, apply the
account predicates and the concurrency check, in the order of the source.
The bcrypt comparison and the configured interim interval are
parameters. -/
def handle_auth_request (bcrypt_checkpw : String → String → Bool)
    (interim_interval : Nat) (rows : List NASClient) (c : NASCache)
    (users : List RadiusUser) (pkt : AuthPacketIn) (now : Int) :
    AuthReply × NASCache :=
  let username := pkt.user_name
  let password := pkt.user_password
  let nas_ip : String :=
    match pkt.nas_ip_attr with
    | some s => if s = "" then pkt.source_ip else s
    | none => pkt.source_ip
  if !(strTruthy username) then (AuthReply.reject "Missing username", c)
  else if !(strTruthy password) then (AuthReply.reject "Missing password", c)
  else
    let fn := NASClient.find_nas rows c (some nas_ip) pkt.nas_identifier_attr
    match fn.1 with
    | none => (AuthReply.reject "Unknown NAS client", fn.2)
    | some _ =>
      match users.find? (fun u => u.username == username.getD "") with
      | none => (AuthReply.reject "Invalid credentials", fn.2)
      | some user =>
        if !(user.check_password bcrypt_checkpw (password.getD "")) then
          (AuthReply.reject "Invalid credentials", fn.2)
        else
          let ca := user.can_authenticate now
          if !ca.1 then (AuthReply.reject ca.2, fn.2)
          else
            let cc := user.can_create_session now
            if !cc.1 then (AuthReply.reject cc.2, fn.2)
            else (AuthReply.accept interim_interval, fn.2)

/-- RadiusServer._AddSecret: resolve the NAS by source IP plus the decoded
NAS-Identifier attribute via `get_best_match`; when a NAS is found the
packet secret is set, otherwise it stays unset. -/
def AddSecret (rows : List NASClient) (c : NASCache) (pkt : AuthPacketIn) :
    Option String × NASCache :=
  let g := NASClient.get_best_match rows c pkt.source_ip pkt.nas_identifier_attr
  match g.1 with
  | some nas => (some nas.get_secret_bytes, g.2)
  | none => (none, g.2)

/-- RadiusServer.HandleAuthPacket: when the secret was not set (or is
falsy) by `_AddSecret`, log a warning and return without sending anything;
otherwise run the authentication handler and send its reply.  The result
is `none` exactly when no reply datagram is sent. -/
def HandleAuthPacket (bcrypt_checkpw : String → String → Bool)
    (interim_interval : Nat) (rows : List NASClient) (c : NASCache)
    (users : List RadiusUser) (pkt : AuthPacketIn) (now : Int) :
    Option AuthReply × NASCache :=
  let s := AddSecret rows c pkt
  match s.1 with
  | none => (none, s.2)
  | some secret =>
    if secret = "" then (none, s.2)
    else
      let r := handle_auth_request bcrypt_checkpw interim_interval rows s.2
        users pkt now
      (some r.1, r.2)

/-- One Interim-Update arriving for a session key: look the session up as
AccountingHandler._handle_interim_update and SessionBuffer._process_update
do, and apply RadiusSession.update_statistics; a missing session is
skipped. -/
def interimStep (session_id : String) (nas_ip : Option String) (now : Int)
    (db : DB) (a : UpdateArgs) : DB :=
  match find_session db.sessions session_id nas_ip with
  | none => db
  | some s => s.update_statistics a now db

/-- A sequence of Interim-Updates applied in order to one session key. -/
def applyInterimUpdates (session_id : String) (nas_ip : Option String)
    (l : List UpdateArgs) (now : Int) (db : DB) : DB :=
  l.foldl (interimStep session_id nas_ip now) db

end PyRadius

namespace PyRadius

/-! Theorems about the embedding, one group per claim. -/

/-- Claim C8, counterexample: the claim says `remaining_sessions` is never
negative after a save.  For a user with `max_concurrent_sessions = 1` and
`current_sessions = 2`, `RadiusUser.save` stores `remaining_sessions = -1`. -/
theorem remaining_sessions_negative_after_save :
    (RadiusUser.save
      { username := "alice", max_concurrent_sessions := 1,
        current_sessions := 2 }).remaining_sessions < 0 := by
  decide

/-- Claim C8, amended: after `save` (and after the flush-time refresh
`update_session_counts`), `remaining_sessions` equals
`max_concurrent_sessions - current_sessions` as a signed value, with no
clamping at zero. -/
theorem save_remaining_sessions_signed (u : RadiusUser)
    (sessions : List RadiusSession) :
    (u.save).remaining_sessions
        = (u.max_concurrent_sessions : Int) - (u.current_sessions : Int)
    ∧ (u.save).current_sessions = u.current_sessions
    ∧ (u.username ≠ "" →
        (u.update_session_counts sessions).remaining_sessions
          = (u.max_concurrent_sessions : Int)
            - (RadiusSession.count_active_sessions_for_user sessions u.username : Int)) := by
  refine ⟨rfl, rfl, fun h => ?_⟩
  unfold RadiusUser.update_session_counts
  rw [if_neg h]
  rfl

/-- Claim C8, witness for the amended theorem at a concrete user. -/
theorem save_remaining_sessions_signed_witness :
    ("alice" : String) ≠ ""
    ∧ (RadiusUser.update_session_counts { username := "alice" } []).remaining_sessions
        = ((1 : Nat) : Int)
          - ((RadiusSession.count_active_sessions_for_user [] "alice" : Nat) : Int) :=
  ⟨by decide,
    (save_remaining_sessions_signed { username := "alice" } []).2.2 (by decide)⟩

/-- Claim C6, counterexample: after a flush whose transaction fails, the
store is rolled back and the error is logged, but the drained operation is
gone: the queue and pending map are empty and a subsequent flush processes
nothing, contrary to the claimed re-enqueue. -/
theorem failed_flush_discards_drained_ops :
    let op : SessionOperation :=
      { op_type := OperationType.stop, session_id := "s1",
        nas_ip_address := "10.0.0.5", username := "alice", timestamp := 1 }
    let r := flush ⟨[op], [(("s1", "10.0.0.5"), op)]⟩ ⟨[], []⟩ 5 true
    r.flush_error_logged = true ∧ r.db = ⟨[], []⟩ ∧ r.buffer.queue = []
      ∧ r.buffer.pending_state = []
      ∧ (flush r.buffer r.db 6 false).processed = 0 := by
  decide

/-- Claim C6, amended: a store failure during flush logs at ERROR and rolls
the batch transaction back (the store is unchanged), but the drained
operations are discarded rather than re-enqueued: the queue is left
empty. -/
theorem failed_flush_rollback_and_loss (buf : BufferState) (db : DB)
    (now : Int) (h : buf.queue ≠ []) :
    (flush buf db now true).flush_error_logged = true
    ∧ (flush buf db now true).db = db
    ∧ (flush buf db now true).buffer.queue = [] := by
  have hne : buf.queue.isEmpty = false := by
    cases hq : buf.queue with
    | nil => exact absurd hq h
    | cons a l => rfl
  unfold flush write_to_database
  simp [hne]

/-- Claim C6, witness for the amended theorem at a concrete buffer. -/
theorem failed_flush_rollback_and_loss_witness :
    (flush
        ⟨[{ op_type := OperationType.stop, session_id := "s1",
            nas_ip_address := "10.0.0.5", username := "alice", timestamp := 1 }],
          []⟩
        ⟨[], []⟩ 5 true).flush_error_logged = true
    ∧ (flush
        ⟨[{ op_type := OperationType.stop, session_id := "s1",
            nas_ip_address := "10.0.0.5", username := "alice", timestamp := 1 }],
          []⟩
        ⟨[], []⟩ 5 true).db = ⟨[], []⟩
    ∧ (flush
        ⟨[{ op_type := OperationType.stop, session_id := "s1",
            nas_ip_address := "10.0.0.5", username := "alice", timestamp := 1 }],
          []⟩
        ⟨[], []⟩ 5 true).buffer.queue = [] :=
  failed_flush_rollback_and_loss _ _ _ (by decide)

/-- Helper for claim C5: folding operations that all share the key of the
first operation and are all Updates into a singleton merged dict only
merges payloads. -/
theorem merge_updates_aux (op₀ : SessionOperation) :
    ∀ (rest : List SessionOperation) (d : OpData),
      (∀ op ∈ rest, op.session_id = op₀.session_id
        ∧ op.nas_ip_address = op₀.nas_ip_address) →
      (∀ op ∈ rest, op.op_type = OperationType.update) →
      List.foldl mergeStep
          [((op₀.session_id, op₀.nas_ip_address), { op₀ with data := d })] rest
        = [((op₀.session_id, op₀.nas_ip_address),
            { op₀ with data := rest.foldl (fun x op => x.dictUpdate op.data) d })]
  | [], _, _, _ => rfl
  | op :: rest, d, hkey, hty => by
    obtain ⟨h1, h2⟩ := hkey op (List.mem_cons_self _ _)
    have hty0 := hty op (List.mem_cons_self _ _)
    rw [List.foldl_cons, List.foldl_cons]
    have hstep : mergeStep
        [((op₀.session_id, op₀.nas_ip_address), { op₀ with data := d })] op
        = [((op₀.session_id, op₀.nas_ip_address),
            { op₀ with data := d.dictUpdate op.data })] := by
      unfold mergeStep assocFind assocReplace
      simp [h1, h2, hty0]
    rw [hstep]
    exact merge_updates_aux op₀ rest (d.dictUpdate op.data)
      (fun o ho => hkey o (List.mem_cons_of_mem _ ho))
      (fun o ho => hty o (List.mem_cons_of_mem _ ho))

/-- Claim C5, counterexample: a Start followed by an Update for the same key
merges to a single operation that keeps type Start (with the update payload
folded into its data), not an operation of type Update as the claim states
for sequences beginning with a Start. -/
theorem merge_start_then_update_stays_start :
    (merge_operations
        [{ op_type := OperationType.start, session_id := "s1",
           nas_ip_address := "10.0.0.5", username := "alice", timestamp := 1 },
         { op_type := OperationType.update, session_id := "s1",
           nas_ip_address := "10.0.0.5", username := "alice", timestamp := 2,
           data := { input_octets := some 100 } }]).map (fun p => p.2.op_type)
      = [OperationType.start]
    ∧ OperationType.start ≠ OperationType.update := by
  decide

/-- Claim C5, amended: when the operations drained for one key are a first
operation followed only by Updates (and so the key ends at an Update with
no Stop), the merge produces a single entry whose payload is the left fold
of `dict.update` over all the payloads (later values overriding earlier
ones) and whose type is the type of the first drained operation for the
key: Update when the sequence is all Updates, Start when it begins with a
Start. -/
theorem merge_ending_update (op₀ : SessionOperation)
    (rest : List SessionOperation)
    (hkey : ∀ op ∈ rest, op.session_id = op₀.session_id
      ∧ op.nas_ip_address = op₀.nas_ip_address)
    (hty : ∀ op ∈ rest, op.op_type = OperationType.update) :
    merge_operations (op₀ :: rest)
      = [((op₀.session_id, op₀.nas_ip_address),
          { op₀ with data := rest.foldl (fun x op => x.dictUpdate op.data) op₀.data })] := by
  have h0 : merge_operations (op₀ :: rest)
      = List.foldl mergeStep
          [((op₀.session_id, op₀.nas_ip_address), { op₀ with data := op₀.data })]
          rest := by
    unfold merge_operations
    rw [List.foldl_cons]
    rfl
  rw [h0]
  exact merge_updates_aux op₀ rest op₀.data hkey hty

/-- Claim C5, witness for the amended theorem: two Updates for one key merge
to one Update carrying the union payload with the later value winning. -/
theorem merge_ending_update_witness :
    (merge_operations
        [{ op_type := OperationType.update, session_id := "s1",
           nas_ip_address := "10.0.0.5", username := "alice", timestamp := 1,
           data := { input_octets := some 100, session_time := some 10 } },
         { op_type := OperationType.update, session_id := "s1",
           nas_ip_address := "10.0.0.5", username := "alice", timestamp := 2,
           data := { input_octets := some 300, output_octets := some 7 } }]).map
        (fun p => (p.2.op_type, p.2.data.input_octets, p.2.data.output_octets,
          p.2.data.session_time))
      = [(OperationType.update, some 300, some 7, some 10)] := by
  rw [merge_ending_update
    { op_type := OperationType.update, session_id := "s1",
      nas_ip_address := "10.0.0.5", username := "alice", timestamp := 1,
      data := { input_octets := some 100, session_time := some 10 } }
    [{ op_type := OperationType.update, session_id := "s1",
       nas_ip_address := "10.0.0.5", username := "alice", timestamp := 2,
       data := { input_octets := some 300, output_octets := some 7 } }]
    (by decide) (by decide)]
  decide

/-- Claim C4, counterexample: with one active NAS row at the IP whose
identifier is A, `find_nas` called with that IP and identifier B returns
the A row: it falls back to a NAS with a different identifier at the same
IP, so the claim is false for this lookup. -/
theorem find_nas_falls_back_on_identifier_mismatch :
    (NASClient.find_nas
        [{ identifier := "A", ip_address := "10.0.0.5",
           shared_secret := "secretA" }]
        [] (some "10.0.0.5") (some "B")).1
      = some { identifier := "A", ip_address := "10.0.0.5",
               shared_secret := "secretA" }
    ∧ ("A" : String) ≠ "B" := by
  decide

/-- Claim C4, amended: the strictness property holds for
`NASClient.get_best_match`, the lookup the UDP dispatcher uses for secret
resolution: given a non-empty identifier (and no cached entry for the
key), when no active row at the IP carries exactly that identifier the
lookup returns none, never falling back to another identifier at the same
IP.  `NASClient.find_nas` (used by the auth handler only as an existence
check) instead matches by IP alone first. -/
theorem get_best_match_strict (rows : List NASClient) (c : NASCache)
    (ip id : String) (hid : id ≠ "")
    (hmiss : cacheGet c ("nas_match:" ++ ip ++ ":" ++ id) = none)
    (hnone : ∀ r ∈ rows, r.ip_address = ip → r.is_active = true →
      r.identifier ≠ id) :
    (NASClient.get_best_match rows c ip (some id)).1 = none := by
  have htr : strTruthy (some id) = true := by simp [strTruthy, hid]
  have hfind : (rows.filter fun r => r.ip_address == ip && r.is_active).find?
      (fun r => r.identifier == id) = none := by
    apply List.find?_eq_none.mpr
    intro x hx
    have hx' := List.mem_filter.mp hx
    have hcond := hx'.2
    simp only [Bool.and_eq_true, beq_iff_eq] at hcond
    simpa using hnone x hx'.1 hcond.1 hcond.2
  unfold NASClient.get_best_match
  rw [htr]
  simp only [Option.getD_some, if_true]
  rw [hmiss]
  by_cases hq : (rows.filter fun r => r.ip_address == ip && r.is_active).isEmpty
  · simp [hq]
  · simp [hq, htr, hfind]

/-- Claim C4, witness for the amended theorem at a concrete store. -/
theorem get_best_match_strict_witness :
    (NASClient.get_best_match
        [{ identifier := "A", ip_address := "10.0.0.5",
           shared_secret := "secretA" }]
        [] "10.0.0.5" (some "B")).1 = none :=
  get_best_match_strict _ [] "10.0.0.5" "B" (by decide) (by decide)
    (by decide)

/-- Claim C7: when the source IP together with the NAS-Identifier attribute
resolves, via the registry lookup `get_best_match` the dispatcher uses, to
no NAS client, `_AddSecret` leaves the packet secret unset and
`HandleAuthPacket` returns without producing any reply datagram — in
particular no Access-Reject is sent to an unknown NAS. -/
theorem unknown_nas_no_reply (bcrypt_checkpw : String → String → Bool)
    (interim_interval : Nat) (rows : List NASClient) (c : NASCache)
    (users : List RadiusUser) (pkt : AuthPacketIn) (now : Int)
    (h : (NASClient.get_best_match rows c pkt.source_ip
      pkt.nas_identifier_attr).1 = none) :
    (HandleAuthPacket bcrypt_checkpw interim_interval rows c users pkt now).1
      = none := by
  simp only [HandleAuthPacket, AddSecret, h]

/-- Claim C7, witness: a packet from a source with no NAS row at all is
dropped without a reply. -/
theorem unknown_nas_no_reply_witness :
    (HandleAuthPacket (fun _ _ => false) 600 [] []
        [{ username := "alice", password_hash := "ctp:pw" }]
        { source_ip := "192.0.2.9", user_name := some "alice",
          user_password := some "pw" }
        0).1 = none :=
  unknown_nas_no_reply (fun _ _ => false) 600 [] []
    [{ username := "alice", password_hash := "ctp:pw" }]
    { source_ip := "192.0.2.9", user_name := some "alice",
      user_password := some "pw" }
    0 (by decide)

/-- Claim C1, evaluation at the failing input: a user with
`max_concurrent_sessions = 1` and `current_sessions = 0` while the Session
Buffer pending map holds one Start for that user.  The buffer reports a
pending count of 1, so stored active sessions plus pending count reaches
the limit and the claim requires a reject; yet the authentication engine
accepts, because `can_create_session` consults only the stored
`current_sessions` and `get_pending_session_count` has no caller on the
authentication path. -/
theorem auth_accepts_despite_pending_start :
    get_pending_session_count
        [(("s0", "10.0.0.5"),
          { op_type := OperationType.start, session_id := "s0",
            nas_ip_address := "10.0.0.5", username := "alice",
            timestamp := 0 })]
        "alice" = 1
    ∧ (({ username := "alice", password_hash := "ctp:pw",
          max_concurrent_sessions := 1, current_sessions := 0 } :
            RadiusUser).current_sessions : Int)
        + get_pending_session_count
            [(("s0", "10.0.0.5"),
              { op_type := OperationType.start, session_id := "s0",
                nas_ip_address := "10.0.0.5", username := "alice",
                timestamp := 0 })]
            "alice"
        ≥ (({ username := "alice", password_hash := "ctp:pw",
              max_concurrent_sessions := 1, current_sessions := 0 } :
                RadiusUser).max_concurrent_sessions : Int)
    ∧ (HandleAuthPacket (fun _ _ => false) 600
        [{ identifier := "vpn1", ip_address := "10.0.0.5",
           shared_secret := "s3cr3t" }]
        []
        [{ username := "alice", password_hash := "ctp:pw",
           max_concurrent_sessions := 1, current_sessions := 0 }]
        { source_ip := "10.0.0.5", nas_identifier_attr := some "vpn1",
          user_name := some "alice", user_password := some "pw" }
        0).1 = some (AuthReply.accept 600) := by
  refine ⟨by decide, by decide, ?_⟩
  decide

/-- Claim C2, evaluation at the failing input: a Start and a Stop for one
session (input 300, output 500, cause User-Request) merged within one
flush, with no pre-existing row.  The flush inserts the single session row
as Stopped with the provided counters, `start_time` from the merged
operation and `stop_time` set — but the traffic counters of the owning user
remain 0 instead of receiving the full absolute counters as a delta,
because `_process_start_and_stop` never touches the user traffic. -/
theorem merged_start_stop_no_user_traffic :
    (flush
        ⟨[{ op_type := OperationType.start, session_id := "s1",
            nas_ip_address := "10.0.0.5", username := "alice", timestamp := 1,
            data := { nas_identifier := some "vpn", framed_ip_address := some none,
                      calling_station_id := some "" } },
          { op_type := OperationType.stop, session_id := "s1",
            nas_ip_address := "10.0.0.5", username := "alice", timestamp := 4,
            data := { terminate_cause := some 1, session_time := some 3,
                      input_octets := some 300, output_octets := some 500 } }],
         []⟩
        ⟨[], [{ username := "alice", max_concurrent_sessions := 2 }]⟩
        5 false).db.sessions.map
        (fun s => ((s.status, s.start_time, s.stop_time, s.session_time),
          (s.input_octets, s.output_octets, s.terminate_cause)))
      = [((SessionStatus.stopped, 4, some 5, 3), (300, 500, some 1))]
    ∧ (flush
        ⟨[{ op_type := OperationType.start, session_id := "s1",
            nas_ip_address := "10.0.0.5", username := "alice", timestamp := 1,
            data := { nas_identifier := some "vpn", framed_ip_address := some none,
                      calling_station_id := some "" } },
          { op_type := OperationType.stop, session_id := "s1",
            nas_ip_address := "10.0.0.5", username := "alice", timestamp := 4,
            data := { terminate_cause := some 1, session_time := some 3,
                      input_octets := some 300, output_octets := some 500 } }],
         []⟩
        ⟨[], [{ username := "alice", max_concurrent_sessions := 2 }]⟩
        5 false).db.users.map
        (fun u => (u.rx_traffic, u.tx_traffic, u.total_traffic,
          u.current_sessions, u.remaining_sessions))
      = [(0, 0, 0, 0, 2)] := by
  refine ⟨by decide, by decide⟩

/-- Members of the zip of a list with its image under a map are pairs
`(x, f x)`. -/
theorem zip_map_mem {α : Type} (l : List α) (f : α → α) (p : α × α)
    (hp : p ∈ l.zip (l.map f)) : p.2 = f p.1 := by
  have h : l.zip (l.map f) = l.map fun a => (a, f a) := by
    have h2 := List.zip_map' (fun a => a) f l
    simpa using h2
  rw [h] at hp
  obtain ⟨a, _, rfl⟩ := List.mem_map.mp hp
  rfl

/-- The user-count refresh never changes the traffic counters. -/
theorem update_session_counts_traffic (u : RadiusUser)
    (sessions : List RadiusSession) :
    (u.update_session_counts sessions).rx_traffic = u.rx_traffic
    ∧ (u.update_session_counts sessions).tx_traffic = u.tx_traffic
    ∧ (u.update_session_counts sessions).total_traffic = u.total_traffic := by
  unfold RadiusUser.update_session_counts RadiusUser.save
  split
  · exact ⟨rfl, rfl, rfl⟩
  · exact ⟨rfl, rfl, rfl⟩

/-- The user-count refresh computes `current_sessions` as the count of
Active sessions for the username (for a non-blank username). -/
theorem update_session_counts_current (u : RadiusUser)
    (sessions : List RadiusSession) (h : u.username ≠ "") :
    (u.update_session_counts sessions).current_sessions
      = RadiusSession.count_active_sessions_for_user sessions u.username := by
  unfold RadiusUser.update_session_counts RadiusUser.save
  rw [if_neg h]

/-- The traffic update is a map over the user rows. -/
theorem update_user_traffic_eq_map (username : String) (delta_rx delta_tx : Int)
    (users : List RadiusUser) :
    update_user_traffic username delta_rx delta_tx users
      = users.map fun u =>
          if delta_rx ≤ 0 ∧ delta_tx ≤ 0 then u
          else if u.username == username then
            { u with
                rx_traffic := u.rx_traffic + max 0 delta_rx,
                tx_traffic := u.tx_traffic + max 0 delta_tx,
                total_traffic := u.total_traffic + max 0 delta_rx + max 0 delta_tx }
          else u := by
  unfold update_user_traffic
  split
  · next h => simp only [if_pos h, List.map_id_fun', id]
  · next h => simp only [if_neg h]

/-- Helper for claim C10: after the traffic update followed by any
traffic-preserving per-user postprocessing, every user row dominates its
previous value on all three traffic counters. -/
theorem uut_map_mono (username : String) (delta_rx delta_tx : Int)
    (users : List RadiusUser) (g : RadiusUser → RadiusUser)
    (hg : ∀ u, (g u).rx_traffic = u.rx_traffic ∧ (g u).tx_traffic = u.tx_traffic
      ∧ (g u).total_traffic = u.total_traffic) :
    ∀ p ∈ users.zip ((update_user_traffic username delta_rx delta_tx users).map g),
      p.1.rx_traffic ≤ p.2.rx_traffic ∧ p.1.tx_traffic ≤ p.2.tx_traffic
        ∧ p.1.total_traffic ≤ p.2.total_traffic := by
  intro p hp
  rw [update_user_traffic_eq_map, List.map_map] at hp
  have h2 := zip_map_mem users _ p hp
  rw [h2]
  simp only [Function.comp_apply]
  rcases hg _ with ⟨hr, ht, hw⟩
  rw [hr, ht, hw]
  by_cases hle : delta_rx ≤ 0 ∧ delta_tx ≤ 0
  · rw [if_pos hle]
    exact ⟨le_refl _, le_refl _, le_refl _⟩
  · rw [if_neg hle]
    by_cases hu : p.1.username == username
    · rw [if_pos hu]
      refine ⟨le_add_of_nonneg_right (le_max_left 0 delta_rx),
        le_add_of_nonneg_right (le_max_left 0 delta_tx), ?_⟩
      have h1 : (0 : Int) ≤ max 0 delta_rx + max 0 delta_tx :=
        add_nonneg (le_max_left 0 delta_rx) (le_max_left 0 delta_tx)
      calc p.1.total_traffic ≤ p.1.total_traffic + (max 0 delta_rx + max 0 delta_tx) :=
            le_add_of_nonneg_right h1
        _ = p.1.total_traffic + max 0 delta_rx + max 0 delta_tx := by ring
    · rw [if_neg hu]
      exact ⟨le_refl _, le_refl _, le_refl _⟩

/-- Claim C10: for every call to `update_statistics` or `stop_session`,
with any combination of provided or omitted counter arguments (including
counter resets), no user row ever loses rx, tx or total traffic: the
applied deltas are clamped at zero. -/
theorem user_traffic_monotone :
    (∀ (s : RadiusSession) (a : UpdateArgs) (now : Int) (db : DB),
      ∀ p ∈ db.users.zip ((s.update_statistics a now db).users),
        p.1.rx_traffic ≤ p.2.rx_traffic ∧ p.1.tx_traffic ≤ p.2.tx_traffic
          ∧ p.1.total_traffic ≤ p.2.total_traffic)
    ∧ (∀ (s : RadiusSession) (a : StopArgs) (now : Int) (db : DB),
      ∀ p ∈ db.users.zip ((s.stop_session a now db).users),
        p.1.rx_traffic ≤ p.2.rx_traffic ∧ p.1.tx_traffic ≤ p.2.tx_traffic
          ∧ p.1.total_traffic ≤ p.2.total_traffic) := by
  constructor
  · intro s a now db p hp
    have hp2 : p ∈ db.users.zip
        ((update_user_traffic s.username (counter_delta a.input_octets s.input_octets)
          (counter_delta a.output_octets s.output_octets) db.users).map (fun u => u)) := by
      simpa [List.map_id_fun', id] using hp
    exact uut_map_mono _ _ _ _ _ (fun u => ⟨rfl, rfl, rfl⟩) p hp2
  · intro s a now db p hp
    exact uut_map_mono _ _ _ _ _
      (fun u => by
        by_cases hu : u.username == s.username
        · simpa [hu] using update_session_counts_traffic u _
        · simp [hu])
      p hp

/-- Claim C10, witness: one update with `input_octets = 5` raises the
traffic of the single user row from 0. -/
theorem user_traffic_monotone_witness :
    ({ username := "alice" } : RadiusUser).rx_traffic
      ≤ ({ username := "alice", rx_traffic := 5, total_traffic := 5 } :
          RadiusUser).rx_traffic :=
  (user_traffic_monotone.1 { session_id := "s1", username := "alice" }
    { input_octets := some 5 } 0 ⟨[], [{ username := "alice" }]⟩
    ({ username := "alice" },
      { username := "alice", rx_traffic := 5, total_traffic := 5 })
    (by decide)).1

/-- A one-row session table always finds its own session under its own
key. -/
theorem find_session_singleton (s : RadiusSession) :
    find_session [s] s.session_id s.nas_ip_address = some s := by
  unfold find_session
  by_cases h : strTruthy s.nas_ip_address
  · simp [h]
  · simp [h]

/-- Value of `update_statistics` on a one-session, one-user store owned by
the user owning the session. -/
theorem update_statistics_singleton (s : RadiusSession) (u : RadiusUser)
    (a : UpdateArgs) (now : Int) (hname : u.username = s.username) :
    RadiusSession.update_statistics s a now ⟨[s], [u]⟩
      = ⟨[{ s with
              session_time := a.session_time.getD s.session_time,
              input_octets := a.input_octets.getD s.input_octets,
              output_octets := a.output_octets.getD s.output_octets,
              input_packets := a.input_packets.getD s.input_packets,
              output_packets := a.output_packets.getD s.output_packets,
              last_updated := now }],
          [{ u with
              rx_traffic := u.rx_traffic
                + max 0 (counter_delta a.input_octets s.input_octets),
              tx_traffic := u.tx_traffic
                + max 0 (counter_delta a.output_octets s.output_octets),
              total_traffic := u.total_traffic
                + max 0 (counter_delta a.input_octets s.input_octets)
                + max 0 (counter_delta a.output_octets s.output_octets) }]⟩ := by
  have hb : (u.username == s.username) = true := by simp [hname]
  simp only [RadiusSession.update_statistics, update_user_traffic]
  split
  · next hle =>
    have hu : { u with
        rx_traffic := u.rx_traffic
          + max 0 (counter_delta a.input_octets s.input_octets),
        tx_traffic := u.tx_traffic
          + max 0 (counter_delta a.output_octets s.output_octets),
        total_traffic := u.total_traffic
          + max 0 (counter_delta a.input_octets s.input_octets)
          + max 0 (counter_delta a.output_octets s.output_octets) } = u := by
      cases u
      simp [max_eq_left hle.1, max_eq_left hle.2]
    rw [hu]
    simp
  · next hle =>
    simp [hb]
    exact fun h => absurd hname h

/-- Helper for claim C3: running a list of Interim-Updates whose
`input_octets` values extend the stored counter monotonically keeps the
rx traffic of the single user synchronized with the stored counter, ending at
the last reported value. -/
theorem interim_rx_aux :
    ∀ (vs : List Int) (l : List UpdateArgs) (s : RadiusSession)
      (u : RadiusUser) (now : Int),
      u.username = s.username →
      u.rx_traffic = s.input_octets →
      l.map (fun a => a.input_octets) = vs.map some →
      List.Chain' (fun x y : Int => x ≤ y) (s.input_octets :: vs) →
      (applyInterimUpdates s.session_id s.nas_ip_address l now
          ⟨[s], [u]⟩).users.map (fun x => x.rx_traffic)
        = [vs.getLastD s.input_octets]
  | [], l, s, u, now, _, hsync, hl, _ => by
    have hl0 : l = [] := by
      cases l with
      | nil => rfl
      | cons a t => simp at hl
    subst hl0
    simp [applyInterimUpdates, hsync]
  | v :: vs, l, s, u, now, hname, hsync, hl, hchain => by
    cases l with
    | nil => simp at hl
    | cons a t =>
      simp only [List.map_cons, List.cons.injEq] at hl
      obtain ⟨ha, ht⟩ := hl
      have h01 : s.input_octets ≤ v := (List.chain'_cons.mp hchain).1
      have hcd : counter_delta a.input_octets s.input_octets
          = v - s.input_octets := by
        rw [ha]
        show (if v < s.input_octets then v else v - s.input_octets)
          = v - s.input_octets
        rw [if_neg (not_lt.mpr h01)]
      have hstep : interimStep s.session_id s.nas_ip_address now ⟨[s], [u]⟩ a
          = ⟨[{ s with
                  session_time := a.session_time.getD s.session_time,
                  input_octets := v,
                  output_octets := a.output_octets.getD s.output_octets,
                  input_packets := a.input_packets.getD s.input_packets,
                  output_packets := a.output_packets.getD s.output_packets,
                  last_updated := now }],
              [{ u with
                  rx_traffic := u.rx_traffic
                    + max 0 (counter_delta a.input_octets s.input_octets),
                  tx_traffic := u.tx_traffic
                    + max 0 (counter_delta a.output_octets s.output_octets),
                  total_traffic := u.total_traffic
                    + max 0 (counter_delta a.input_octets s.input_octets)
                    + max 0 (counter_delta a.output_octets s.output_octets) }]⟩ := by
        unfold interimStep
        rw [find_session_singleton]
        show RadiusSession.update_statistics s a now ⟨[s], [u]⟩ = _
        rw [update_statistics_singleton s u a now hname, ha]
        rfl
      have hsync2 : u.rx_traffic
          + max 0 (counter_delta a.input_octets s.input_octets) = v := by
        rw [hcd, max_eq_right (sub_nonneg.mpr h01), hsync]
        omega
      have hgoal := interim_rx_aux vs t
        { s with
            session_time := a.session_time.getD s.session_time,
            input_octets := v,
            output_octets := a.output_octets.getD s.output_octets,
            input_packets := a.input_packets.getD s.input_packets,
            output_packets := a.output_packets.getD s.output_packets,
            last_updated := now }
        { u with
            rx_traffic := u.rx_traffic
              + max 0 (counter_delta a.input_octets s.input_octets),
            tx_traffic := u.tx_traffic
              + max 0 (counter_delta a.output_octets s.output_octets),
            total_traffic := u.total_traffic
              + max 0 (counter_delta a.input_octets s.input_octets)
              + max 0 (counter_delta a.output_octets s.output_octets) }
        now hname hsync2 ht
        (by
          have h2 := hchain.tail
          exact h2)
      rw [List.getLastD_cons]
      calc (applyInterimUpdates s.session_id s.nas_ip_address (a :: t) now
              ⟨[s], [u]⟩).users.map (fun x => x.rx_traffic)
          = (applyInterimUpdates s.session_id s.nas_ip_address t now
              (interimStep s.session_id s.nas_ip_address now ⟨[s], [u]⟩ a)).users.map
              (fun x => x.rx_traffic) := rfl
        _ = [vs.getLastD v] := by rw [hstep]; exact hgoal

/-- Helper for claim C3, the tx and output-octets analogue of the previous
lemma. -/
theorem interim_tx_aux :
    ∀ (vs : List Int) (l : List UpdateArgs) (s : RadiusSession)
      (u : RadiusUser) (now : Int),
      u.username = s.username →
      u.tx_traffic = s.output_octets →
      l.map (fun a => a.output_octets) = vs.map some →
      List.Chain' (fun x y : Int => x ≤ y) (s.output_octets :: vs) →
      (applyInterimUpdates s.session_id s.nas_ip_address l now
          ⟨[s], [u]⟩).users.map (fun x => x.tx_traffic)
        = [vs.getLastD s.output_octets]
  | [], l, s, u, now, _, hsync, hl, _ => by
    have hl0 : l = [] := by
      cases l with
      | nil => rfl
      | cons a t => simp at hl
    subst hl0
    simp [applyInterimUpdates, hsync]
  | v :: vs, l, s, u, now, hname, hsync, hl, hchain => by
    cases l with
    | nil => simp at hl
    | cons a t =>
      simp only [List.map_cons, List.cons.injEq] at hl
      obtain ⟨ha, ht⟩ := hl
      have h01 : s.output_octets ≤ v := (List.chain'_cons.mp hchain).1
      have hcd : counter_delta a.output_octets s.output_octets
          = v - s.output_octets := by
        rw [ha]
        show (if v < s.output_octets then v else v - s.output_octets)
          = v - s.output_octets
        rw [if_neg (not_lt.mpr h01)]
      have hstep : interimStep s.session_id s.nas_ip_address now ⟨[s], [u]⟩ a
          = ⟨[{ s with
                  session_time := a.session_time.getD s.session_time,
                  input_octets := a.input_octets.getD s.input_octets,
                  output_octets := v,
                  input_packets := a.input_packets.getD s.input_packets,
                  output_packets := a.output_packets.getD s.output_packets,
                  last_updated := now }],
              [{ u with
                  rx_traffic := u.rx_traffic
                    + max 0 (counter_delta a.input_octets s.input_octets),
                  tx_traffic := u.tx_traffic
                    + max 0 (counter_delta a.output_octets s.output_octets),
                  total_traffic := u.total_traffic
                    + max 0 (counter_delta a.input_octets s.input_octets)
                    + max 0 (counter_delta a.output_octets s.output_octets) }]⟩ := by
        unfold interimStep
        rw [find_session_singleton]
        show RadiusSession.update_statistics s a now ⟨[s], [u]⟩ = _
        rw [update_statistics_singleton s u a now hname, ha]
        rfl
      have hsync2 : u.tx_traffic
          + max 0 (counter_delta a.output_octets s.output_octets) = v := by
        rw [hcd, max_eq_right (sub_nonneg.mpr h01), hsync]
        omega
      have hgoal := interim_tx_aux vs t
        { s with
            session_time := a.session_time.getD s.session_time,
            input_octets := a.input_octets.getD s.input_octets,
            output_octets := v,
            input_packets := a.input_packets.getD s.input_packets,
            output_packets := a.output_packets.getD s.output_packets,
            last_updated := now }
        { u with
            rx_traffic := u.rx_traffic
              + max 0 (counter_delta a.input_octets s.input_octets),
            tx_traffic := u.tx_traffic
              + max 0 (counter_delta a.output_octets s.output_octets),
            total_traffic := u.total_traffic
              + max 0 (counter_delta a.input_octets s.input_octets)
              + max 0 (counter_delta a.output_octets s.output_octets) }
        now hname hsync2 ht
        (by
          have h2 := hchain.tail
          exact h2)
      rw [List.getLastD_cons]
      calc (applyInterimUpdates s.session_id s.nas_ip_address (a :: t) now
              ⟨[s], [u]⟩).users.map (fun x => x.tx_traffic)
          = (applyInterimUpdates s.session_id s.nas_ip_address t now
              (interimStep s.session_id s.nas_ip_address now ⟨[s], [u]⟩ a)).users.map
              (fun x => x.tx_traffic) := rfl
        _ = [vs.getLastD v] := by rw [hstep]; exact hgoal

/-- Claim C3: for a fresh session of a user whose traffic starts at 0 and
who has no other sessions, a monotone sequence of Interim-Updates leaves
the rx traffic of the user equal to the last reported `input_octets`; and a
single update whose `input_octets` is strictly below the stored counter
credits exactly the full new value (counter-reset semantics); analogously
for output octets and tx traffic. -/
theorem interim_update_traffic_deltas :
    (∀ (s : RadiusSession) (u : RadiusUser) (l : List UpdateArgs)
        (vs : List Int) (now : Int),
      u.username = s.username → u.rx_traffic = 0 → s.input_octets = 0 →
      l.map (fun a => a.input_octets) = vs.map some →
      List.Chain' (fun x y : Int => x ≤ y) ((0 : Int) :: vs) →
      (applyInterimUpdates s.session_id s.nas_ip_address l now
          ⟨[s], [u]⟩).users.map (fun x => x.rx_traffic)
        = [vs.getLastD 0])
    ∧ (∀ (s : RadiusSession) (u : RadiusUser) (l : List UpdateArgs)
        (vs : List Int) (now : Int),
      u.username = s.username → u.tx_traffic = 0 → s.output_octets = 0 →
      l.map (fun a => a.output_octets) = vs.map some →
      List.Chain' (fun x y : Int => x ≤ y) ((0 : Int) :: vs) →
      (applyInterimUpdates s.session_id s.nas_ip_address l now
          ⟨[s], [u]⟩).users.map (fun x => x.tx_traffic)
        = [vs.getLastD 0])
    ∧ (∀ (s : RadiusSession) (u : RadiusUser) (a : UpdateArgs) (now : Int)
        (v : Int),
      u.username = s.username → a.input_octets = some v →
      v < s.input_octets → 0 ≤ v →
      (RadiusSession.update_statistics s a now ⟨[s], [u]⟩).users.map
          (fun x => x.rx_traffic)
        = [u.rx_traffic + v])
    ∧ (∀ (s : RadiusSession) (u : RadiusUser) (a : UpdateArgs) (now : Int)
        (v : Int),
      u.username = s.username → a.output_octets = some v →
      v < s.output_octets → 0 ≤ v →
      (RadiusSession.update_statistics s a now ⟨[s], [u]⟩).users.map
          (fun x => x.tx_traffic)
        = [u.tx_traffic + v]) := by
  refine ⟨?_, ?_, ?_, ?_⟩
  · intro s u l vs now hname hrx hs hl hchain
    have h := interim_rx_aux vs l s u now hname (by rw [hrx, hs]) hl
      (by rw [hs]; exact hchain)
    rw [h, hs]
  · intro s u l vs now hname htx hs hl hchain
    have h := interim_tx_aux vs l s u now hname (by rw [htx, hs]) hl
      (by rw [hs]; exact hchain)
    rw [h, hs]
  · intro s u a now v hname ha hlt hv
    rw [update_statistics_singleton s u a now hname]
    have hcd : counter_delta a.input_octets s.input_octets = v := by
      rw [ha]
      show (if v < s.input_octets then v else v - s.input_octets) = v
      rw [if_pos hlt]
    simp [hcd, max_eq_right hv]
  · intro s u a now v hname ha hlt hv
    rw [update_statistics_singleton s u a now hname]
    have hcd : counter_delta a.output_octets s.output_octets = v := by
      rw [ha]
      show (if v < s.output_octets then v else v - s.output_octets) = v
      rw [if_pos hlt]
    simp [hcd, max_eq_right hv]

/-- Claim C3, witness: two monotone updates (100 then 300) leave the
rx traffic of the user at 300. -/
theorem interim_update_traffic_deltas_witness :
    (applyInterimUpdates "s1" none
        [{ input_octets := some 100 }, { input_octets := some 300 }] 7
        ⟨[{ session_id := "s1", username := "alice" }],
          [{ username := "alice" }]⟩).users.map (fun x => x.rx_traffic)
      = [([100, 300] : List Int).getLastD 0] :=
  interim_update_traffic_deltas.1 { session_id := "s1", username := "alice" }
    { username := "alice" }
    [{ input_octets := some 100 }, { input_octets := some 300 }]
    [100, 300] 7 rfl rfl rfl rfl (by norm_num [List.chain'_cons])

/-- The dead-session queryset filter in propositional form. -/
theorem dead_session_pred_iff (c : Int) (s : RadiusSession) :
    dead_session_pred c s = true
      ↔ (s.status = SessionStatus.active ∧ s.last_updated < c) := by
  simp [dead_session_pred]

/-- Value of cleanup_dead_sessions componentwise: the returned count, the
session table as a map, and the user table as a map keyed on the affected
usernames. -/
theorem cleanup_dead_sessions_char (db : DB) (now now2 : Int)
    (interim multiplier : Nat) :
    (RadiusSession.cleanup_dead_sessions db now now2 interim multiplier).2
      = (db.sessions.filter
          (dead_session_pred (stale_cutoff now interim multiplier))).length
    ∧ (RadiusSession.cleanup_dead_sessions db now now2 interim multiplier).1.sessions
      = db.sessions.map (fun s =>
          if dead_session_pred (stale_cutoff now interim multiplier) s then
            { s with
                status := SessionStatus.stopped,
                stop_time := some now2,
                terminate_cause := some TERMINATE_CAUSE_LOST_CARRIER }
          else s)
    ∧ (RadiusSession.cleanup_dead_sessions db now now2 interim multiplier).1.users
      = db.users.map (fun u =>
          if ((db.sessions.filter
                (dead_session_pred (stale_cutoff now interim multiplier))).map
              (fun s => s.username)).contains u.username then
            u.update_session_counts
              (RadiusSession.cleanup_dead_sessions db now now2 interim
                multiplier).1.sessions
          else u) := by
  by_cases hc : 0 < (db.sessions.filter
      (dead_session_pred (stale_cutoff now interim multiplier))).length
  · simp only [RadiusSession.cleanup_dead_sessions]
    rw [if_pos hc]
    exact ⟨rfl, rfl, rfl⟩
  · have h0 : db.sessions.filter
        (dead_session_pred (stale_cutoff now interim multiplier)) = [] := by
      cases hl : db.sessions.filter
          (dead_session_pred (stale_cutoff now interim multiplier)) with
      | nil => rfl
      | cons a t => rw [hl] at hc; simp at hc
    simp only [RadiusSession.cleanup_dead_sessions]
    rw [if_neg hc]
    refine ⟨rfl, ?_, ?_⟩
    · have hmap : db.sessions.map (fun s =>
          if dead_session_pred (stale_cutoff now interim multiplier) s then
            { s with
                status := SessionStatus.stopped,
                stop_time := some now2,
                terminate_cause := some TERMINATE_CAUSE_LOST_CARRIER }
          else s) = db.sessions := by
        conv_rhs => rw [← List.map_id db.sessions]
        apply List.map_congr_left
        intro x hx
        rw [if_neg (List.filter_eq_nil_iff.mp h0 x hx)]
        rfl
      exact hmap.symm
    · rw [h0]
      have hmap : db.users.map (fun u =>
          if (([] : List RadiusSession).map (fun s => s.username)).contains
              u.username then
            u.update_session_counts db.sessions
          else u) = db.users := by
        conv_rhs => rw [← List.map_id db.users]
        apply List.map_congr_left
        intro x hx
        simp
      exact hmap.symm

/-- Claim C9: one run of the dead-session reaper stops exactly the Active
sessions whose `last_updated` is strictly before
`now - ACCT_INTERIM_INTERVAL * STALE_SESSION_MULTIPLIER` (setting cause
Lost-Carrier and `stop_time`, touching nothing else on the row), leaves
every other session unchanged, recomputes `current_sessions` as the count
of remaining Active sessions for every (non-blank) username that had a
session reaped, leaves users without a reaped session untouched, and
returns the number of reaped sessions. -/
theorem cleanup_dead_sessions_spec (db : DB) (now now2 : Int)
    (interim multiplier : Nat) :
    (RadiusSession.cleanup_dead_sessions db now now2 interim multiplier).2
      = (db.sessions.filter
          (dead_session_pred (stale_cutoff now interim multiplier))).length
    ∧ (∀ p ∈ db.sessions.zip
        (RadiusSession.cleanup_dead_sessions db now now2 interim
          multiplier).1.sessions,
      (p.1.status = SessionStatus.active
          ∧ p.1.last_updated < stale_cutoff now interim multiplier →
        p.2 = { p.1 with
            status := SessionStatus.stopped,
            stop_time := some now2,
            terminate_cause := some TERMINATE_CAUSE_LOST_CARRIER })
      ∧ (¬ (p.1.status = SessionStatus.active
          ∧ p.1.last_updated < stale_cutoff now interim multiplier) →
        p.2 = p.1))
    ∧ (∀ p ∈ db.users.zip
        (RadiusSession.cleanup_dead_sessions db now now2 interim
          multiplier).1.users,
      (p.1.username ≠ "" →
        (∃ s ∈ db.sessions, s.status = SessionStatus.active
          ∧ s.last_updated < stale_cutoff now interim multiplier
          ∧ s.username = p.1.username) →
        p.2.current_sessions
          = RadiusSession.count_active_sessions_for_user
              (RadiusSession.cleanup_dead_sessions db now now2 interim
                multiplier).1.sessions p.1.username)
      ∧ ((¬ ∃ s ∈ db.sessions, s.status = SessionStatus.active
          ∧ s.last_updated < stale_cutoff now interim multiplier
          ∧ s.username = p.1.username) →
        p.2 = p.1)) := by
  obtain ⟨h2, hs, hu⟩ := cleanup_dead_sessions_char db now now2 interim multiplier
  refine ⟨h2, ?_, ?_⟩
  · intro p hp
    rw [hs] at hp
    have hval := zip_map_mem db.sessions _ p hp
    rw [hval]
    constructor
    · intro hdead
      rw [if_pos ((dead_session_pred_iff _ _).mpr hdead)]
    · intro hnot
      rw [if_neg (fun h => hnot ((dead_session_pred_iff _ _).mp h))]
  · intro p hp
    rw [hu] at hp
    have hval := zip_map_mem db.users _ p hp
    rw [hval]
    constructor
    · intro hne hex
      rcases hex with ⟨s, hsmem, hact, hlt, hun⟩
      have hmem : p.1.username ∈ (db.sessions.filter
          (dead_session_pred (stale_cutoff now interim multiplier))).map
            (fun s => s.username) :=
        List.mem_map.mpr ⟨s,
          List.mem_filter.mpr ⟨hsmem, (dead_session_pred_iff _ _).mpr ⟨hact, hlt⟩⟩,
          hun⟩
      rw [if_pos (by simpa using hmem)]
      exact update_session_counts_current p.1 _ hne
    · intro hnex
      have hnmem : p.1.username ∉ (db.sessions.filter
          (dead_session_pred (stale_cutoff now interim multiplier))).map
            (fun s => s.username) := by
        intro hmem
        rcases List.mem_map.mp hmem with ⟨s, hsf, hun⟩
        rcases List.mem_filter.mp hsf with ⟨hsmem, hpred⟩
        rcases (dead_session_pred_iff _ _).mp hpred with ⟨hact, hlt⟩
        exact hnex ⟨s, hsmem, hact, hlt, hun⟩
      rw [if_neg (by simpa using hnmem)]

/-- Claim C9, witness: a session silent since time 0 is reaped at time 4000
with a 3000-second threshold. -/
theorem cleanup_dead_sessions_spec_witness :
    (({ session_id := "s1", username := "alice",
         status := SessionStatus.active, last_updated := 0 } : RadiusSession),
       ({ session_id := "s1", username := "alice",
           status := SessionStatus.stopped, last_updated := 0,
           stop_time := some 4001,
           terminate_cause := some 2 } : RadiusSession)).2
      = ({ session_id := "s1", username := "alice",
            status := SessionStatus.stopped, last_updated := 0,
            stop_time := some 4001,
            terminate_cause := some TERMINATE_CAUSE_LOST_CARRIER } :
          RadiusSession) :=
  ((cleanup_dead_sessions_spec
      ⟨[{ session_id := "s1", username := "alice",
           status := SessionStatus.active, last_updated := 0 }], []⟩
      4000 4001 600 5).2.1
    (({ session_id := "s1", username := "alice",
         status := SessionStatus.active, last_updated := 0 } : RadiusSession),
       ({ session_id := "s1", username := "alice",
           status := SessionStatus.stopped, last_updated := 0,
           stop_time := some 4001,
           terminate_cause := some 2 } : RadiusSession))
    (by decide)).1 ⟨rfl, by decide⟩

end PyRadius
